import Mathlib

set_option maxHeartbeats 1000000

/-!
Verification of the Stowrage store (`src/stowrage.ts`): a dual-index
in-memory keyed store (name-keyed map `#DB`, id-keyed map `#IDMap`) with a
monotone id counter `#id`, an optional `maxEntries` eviction policy, and an
optional SQLite persistence mirror. The definitions below are a shallow
embedding of the TypeScript class, one Lean function per method, with JS
`Map` objects modelled as insertion-ordered association lists and thrown
exceptions modelled with `Except`.
-/

/-- Values stored in a Stowrage. The source distinguishes data by
`typeof entry.data === "object"`: a keyed record (`obj`) versus any
scalar/opaque value (`scalar`). -/
inductive JSData where
  | scalar : Int → JSData
  | obj : List (String × JSData) → JSData

/-- An entry of the store (`DataBase<DataType>` from `typings.ts`):
`{ id, name, data }`. -/
structure DataBase where
  id : Nat
  name : String
  data : JSData

/-- The error taxonomy of `error.ts`, plus `TypeError` for JS runtime
crashes (property access on `undefined`). `IDNotFoundError` carries an
`Option Nat` because `setValue` reaches its throw with the id variable
already overwritten by a failed `Map.get`, i.e. with `undefined`. -/
inductive StowError where
  | NameDuplicationError : String → StowError
  | NameNotFoundError : String → StowError
  | IDNotFoundError : Option Nat → StowError
  | KeyUndefinedError : StowError
  | InvalidKeyError : String → String → StowError
  | nonPersistentError : String → String → StowError
  | TypeError : StowError
deriving DecidableEq

/-- JS `Map.get`: the value at the first matching key, or `none`. -/
def mapGet {α β : Type} [DecidableEq α] : List (α × β) → α → Option β
  | [], _ => none
  | (k, v) :: rest, k0 => if k = k0 then some v else mapGet rest k0

/-- JS `Map.set`: replace the value at an existing key in place (keeping
its position), otherwise append the new pair at the end. -/
def mapSet {α β : Type} [DecidableEq α] : List (α × β) → α → β → List (α × β)
  | [], k0, v0 => [(k0, v0)]
  | (k, v) :: rest, k0, v0 =>
      if k = k0 then (k0, v0) :: rest else (k, v) :: mapSet rest k0 v0

/-- JS `Map.delete`: remove the first matching key, if any. -/
def mapDelete {α β : Type} [DecidableEq α] : List (α × β) → α → List (α × β)
  | [], _ => []
  | (k, v) :: rest, k0 => if k = k0 then rest else (k, v) :: mapDelete rest k0

/-- `Map.get` on the id index with a possibly negative JS number as key:
a negative key is present for no entry, so the lookup yields `undefined`. -/
def idLookupInt (m : List (Nat × String)) (i : Int) : Option String :=
  if 0 ≤ i then mapGet m i.toNat else none

/-- One row of the mirror table: `(id, name, data)`. The `data` column
holds `JSON.stringify` of the value; the JSON round-trip is faithful on
the values modelled here, so rows carry the value itself. -/
abbrev Row : Type := Nat × String × JSData

/-- The state of a `Stowrage<DataType>` instance. `id`, `IDMap`, `DB`,
`maxEntries`, `name`, `isPersistent` are the class fields; `SQLDB` records
whether the private `#SQLDB` handle is set (i.e. `init` ran); `table` is
the modelled content of the mirror file, in rowid (insertion) order.
Modelled from the spec: the SQLite collaborator (`DB` from `deps.ts`) is
not under `src/`; its queries follow section 6 of the design together with
standard SQLite semantics for the schema
`CREATE TABLE (id INTEGER, name TEXT, data TEXT)` — which declares no
PRIMARY KEY or UNIQUE constraint, so `REPLACE INTO` never finds a
conflicting row and behaves exactly like `INSERT` (it appends a row). -/
structure Stowrage where
  id : Nat
  IDMap : List (Nat × String)
  DB : List (String × DataBase)
  maxEntries : Option Nat
  name : Option String
  isPersistent : Bool
  SQLDB : Bool
  table : List Row

namespace Stowrage

/-- The constructor: fresh indices and counter; `fileTable` is the content
of the persistence file `<path><name>.db` this instance would open (empty
for a brand-new store name). -/
def new (maxEntries : Option Nat) (name : Option String) (persistent : Bool)
    (fileTable : List Row) : Stowrage :=
  { id := 0, IDMap := [], DB := [], maxEntries := maxEntries, name := name,
    isPersistent := persistent, SQLDB := false, table := fileTable }

/-- `this.name ?? "unnamed db"`. -/
def displayName (s : Stowrage) : String :=
  match s.name with
  | some n => n
  | none => "unnamed db"

/-- `totalEntries()`: the size of the name index. -/
def totalEntries (s : Stowrage) : Nat := s.DB.length

/-- `has(name)`. -/
def has (s : Stowrage) (name : String) : Bool := (mapGet s.DB name).isSome

/-- `generateEntry(name, key, override?)`. For an override it reuses the
existing entry's id (crashing like the JS non-null assertion would if the
name is absent) and performs no side effect. Otherwise it assigns the
post-incremented counter's previous value as id, mirrors an `INSERT` when
persistence is live, and then — still BEFORE the caller inserts the new
entry into either index — if `maxEntries` is truthy and the name index is
already larger than it, looks up the name of id `#id - maxEntries` (the
counter here being already incremented), deletes that name from the name
index only when the name is truthy, and issues
`DELETE FROM stowrage WHERE name = ?` (a no-op on the table when the
looked-up name is `undefined`, since it binds NULL). -/
def generateEntry (s : Stowrage) (name : String) (key : JSData)
    (override : Bool) : Except StowError (DataBase × Stowrage) :=
  if override then
    match mapGet s.DB name with
    | none => .error .TypeError
    | some e => .ok (⟨e.id, name, key⟩, s)
  else
    let newId := s.id
    let s1 : Stowrage := { s with id := s.id + 1 }
    let obj : DataBase := ⟨newId, name, key⟩
    let s2 : Stowrage :=
      if s1.SQLDB ∧ s1.isPersistent then
        { s1 with table := s1.table ++ [(newId, name, key)] }
      else s1
    let s3 : Stowrage :=
      match s2.maxEntries with
      | some m =>
        if m ≠ 0 ∧ s2.DB.length > m then
          match idLookupInt s2.IDMap ((s2.id : Int) - (m : Int)) with
          | some evicted =>
            let sa : Stowrage :=
              if evicted = "" then s2
              else { s2 with DB := mapDelete s2.DB evicted }
            if sa.SQLDB ∧ sa.isPersistent then
              { sa with table := sa.table.filter (fun r => decide (r.2.1 ≠ evicted)) }
            else sa
          | none => s2
        else s2
      | none => s2
    .ok (obj, s3)

/-- `ensure(name, value)`: duplicate check, then `generateEntry`, then the
new pair is written to both indices; returns the created entry. -/
def ensure (s : Stowrage) (name : String) (value : JSData) :
    Except StowError (DataBase × Stowrage) :=
  if (mapGet s.DB name).isSome then .error (.NameDuplicationError name)
  else
    match generateEntry s name value false with
    | .error err => .error err
    | .ok (entry, s1) =>
      .ok (entry, { s1 with IDMap := mapSet s1.IDMap entry.id name,
                            DB := mapSet s1.DB name entry })

/-- `add(name, key)`: identical to `ensure` but returns nothing. -/
def add (s : Stowrage) (name : String) (key : JSData) :
    Except StowError Stowrage :=
  if (mapGet s.DB name).isSome then .error (.NameDuplicationError name)
  else
    match generateEntry s name key false with
    | .error err => .error err
    | .ok (entry, s1) =>
      .ok { s1 with IDMap := mapSet s1.IDMap entry.id name,
                    DB := mapSet s1.DB name entry }

/-- `delete(name)`: remove from both indices, then mirror
`DELETE ... WHERE id = ?`. -/
def delete (s : Stowrage) (name : String) : Except StowError Stowrage :=
  match mapGet s.DB name with
  | none => .error (.NameNotFoundError name)
  | some entry =>
    let s1 : Stowrage :=
      { s with DB := mapDelete s.DB name, IDMap := mapDelete s.IDMap entry.id }
    if s1.SQLDB ∧ s1.isPersistent then
      .ok { s1 with table := s1.table.filter (fun r => decide (r.1 ≠ entry.id)) }
    else .ok s1

/-- `deleteByID(id)`: resolve the name through the id index (the JS falsy
test also rejects an empty-string name), remove from both indices, mirror
the delete by id. -/
def deleteByID (s : Stowrage) (id : Nat) : Except StowError Stowrage :=
  match mapGet s.IDMap id with
  | none => .error (.IDNotFoundError (some id))
  | some nm =>
    if nm = "" then .error (.IDNotFoundError (some id))
    else
      let s1 : Stowrage :=
        { s with IDMap := mapDelete s.IDMap id, DB := mapDelete s.DB nm }
      if s1.SQLDB ∧ s1.isPersistent then
        .ok { s1 with table := s1.table.filter (fun r => decide (r.1 ≠ id)) }
      else .ok s1

/-- `deleteByRange(start, length)`: when `start + length >= #DB.size`,
clear both indices, reset the counter and mirror `DELETE FROM stowrage`;
otherwise rebuild both indices keeping only ids outside the inclusive
range `[start, start + length]`, and mirror a `BETWEEN` delete. -/
def deleteByRange (s : Stowrage) (start length : Nat) : Stowrage :=
  let range := start + length
  if s.DB.length ≤ range then
    let s1 : Stowrage := { s with DB := [], IDMap := [], id := 0 }
    if s1.SQLDB ∧ s1.isPersistent then { s1 with table := [] } else s1
  else
    let s1 : Stowrage :=
      { s with
        DB := s.DB.filter (fun e => decide (e.2.id < start) || decide (range < e.2.id)),
        IDMap := s.IDMap.filter (fun e => decide (e.1 < start) || decide (range < e.1)) }
    if s1.SQLDB ∧ s1.isPersistent then
      { s1 with table := s1.table.filter (fun r => !(decide (start ≤ r.1) && decide (r.1 ≤ range))) }
    else s1

/-- `override(name, newValue)`: existence check, entry regenerated with
the preserved id, written to the name index, and mirrored with
`REPLACE INTO` — which, the table having no uniqueness constraint, appends
a row. -/
def override (s : Stowrage) (name : String) (newValue : JSData) :
    Except StowError Stowrage :=
  if (mapGet s.DB name).isSome then
    match generateEntry s name newValue true with
    | .error err => .error err
    | .ok (entry, s1) =>
      let s2 : Stowrage := { s1 with DB := mapSet s1.DB name entry }
      if s2.SQLDB ∧ s2.isPersistent then
        .ok { s2 with table := s2.table ++ [(entry.id, entry.name, entry.data)] }
      else .ok s2
  else .error (.NameNotFoundError name)

/-- `overrideByID(id, key)`: resolve the name (JS falsy test, so an
empty-string name also throws), then delegate to `override`. -/
def overrideByID (s : Stowrage) (id : Nat) (key : JSData) :
    Except StowError Stowrage :=
  match mapGet s.IDMap id with
  | some nm =>
    if nm = "" then .error (.IDNotFoundError (some id)) else override s nm key
  | none => .error (.IDNotFoundError (some id))

/-- `fetch(name)`. -/
def fetch (s : Stowrage) (name : String) : Except StowError DataBase :=
  match mapGet s.DB name with
  | none => .error (.NameNotFoundError name)
  | some d => .ok d

/-- `fetchByID(id)` (JS falsy test on the resolved name). -/
def fetchByID (s : Stowrage) (id : Nat) : Except StowError DataBase :=
  match mapGet s.IDMap id with
  | none => .error (.IDNotFoundError (some id))
  | some nm => if nm = "" then .error (.IDNotFoundError (some id)) else fetch s nm

/-- `fetchByRange(start, length)`: when `start + length >= #DB.size`
return ALL values of the name index (whatever their ids); otherwise the
values whose id lies in the half-open range `[start, start + length)`. -/
def fetchByRange (s : Stowrage) (start length : Nat) : List DataBase :=
  let range := start + length
  if s.DB.length ≤ range then s.DB.map Prod.snd
  else (s.DB.map Prod.snd).filter
    (fun d => decide (start ≤ d.id) && decide (d.id < range))

/-- `setValue(nameID, options)`. A numeric argument is first overwritten
by `#IDMap.get`, possibly with `undefined`; the `if (!nameID)` falsy test
then throws `NameNotFoundError` only when the resolved value is the empty
string (`typeof "" === "string"`), and otherwise `IDNotFoundError` with
the already-overwritten — hence `undefined` — variable. A non-empty
absent name slips past the test and crashes with a TypeError on
`entry!.data`. Object data demands an existing key; the slot is mutated
and `override` is invoked with the updated data. Scalar data is replaced
wholesale through `override`. -/
def setValue (s : Stowrage) (nameID : String ⊕ Nat) (key : Option String)
    (value : JSData) : Except StowError Stowrage :=
  let n : Option String :=
    match nameID with
    | .inl str => some str
    | .inr i => mapGet s.IDMap i
  if n = none ∨ n = some "" then
    match n with
    | some str => .error (.NameNotFoundError str)
    | none => .error (.IDNotFoundError none)
  else
    match n with
    | none => .error (.IDNotFoundError none)
    | some nm =>
      match mapGet s.DB nm with
      | none => .error .TypeError
      | some entry =>
        match entry.data with
        | .obj kvs =>
          match key with
          | none => .error .KeyUndefinedError
          | some k =>
            if (mapGet kvs k).isSome then
              override s nm (.obj (mapSet kvs k value))
            else .error (.InvalidKeyError k s.displayName)
        | .scalar _ => override s nm value

/-- `deleteStowrage()`: clear both indices, reset the counter, mirror
`DELETE FROM stowrage`. -/
def deleteStowrage (s : Stowrage) : Stowrage :=
  let s1 : Stowrage := { s with DB := [], IDMap := [], id := 0 }
  if s1.isPersistent ∧ s1.SQLDB then { s1 with table := [] } else s1

/-- `close()`: throws when no handle was ever opened; otherwise closes the
handle (the file content is untouched). -/
def close (s : Stowrage) : Except StowError Stowrage :=
  if s.SQLDB then .ok s
  else .error (.nonPersistentError s.displayName "closed")

/-- The replay loop of `init`: each persisted row is fed back through the
ordinary `add` path; a thrown error propagates out of `init`. -/
def replayRows (s : Stowrage) : List (String × JSData) → Except StowError Stowrage
  | [] => .ok s
  | (n, d) :: rest =>
    match add s n d with
    | .error err => .error err
    | .ok s1 => replayRows s1 rest

/-- `init()`: requires a truthy `name` and `isPersistent`; opens the
handle, `CREATE TABLE IF NOT EXISTS` (the file content is kept), then
replays every persisted row `(name, data)` — the id column is NOT
selected — through `add`. -/
def init (s : Stowrage) : Except StowError Stowrage :=
  match s.name with
  | some nm =>
    if nm ≠ "" ∧ s.isPersistent then
      let s1 : Stowrage := { s with SQLDB := true }
      replayRows s1 (s1.table.map (fun r => (r.2.1, r.2.2)))
    else .error (.nonPersistentError nm "initiated")
  | none => .error (.nonPersistentError "unnamed db" "initiated")

end Stowrage

namespace Stowrage

/-- The store reached from a fresh non-persistent store by
`add("a", 1); add("b", 2)` (the setting of the deleteByRange example). -/
def exStoreAB : Stowrage :=
  { id := 2, IDMap := [(0, "a"), (1, "b")],
    DB := [("a", ⟨0, "a", .scalar 1⟩), ("b", ⟨1, "b", .scalar 2⟩)],
    maxEntries := none, name := none, isPersistent := false, SQLDB := false,
    table := [] }

/-- The store reached from `exStoreAB` by `delete("a")`: a single entry
whose id (1) is NOT contiguous with the entry count (1). -/
def exStoreB : Stowrage :=
  { id := 2, IDMap := [(1, "b")], DB := [("b", ⟨1, "b", .scalar 2⟩)],
    maxEntries := none, name := none, isPersistent := false, SQLDB := false,
    table := [] }

/-- The object record `{x: 1, y: 2}` held by the entry "o" of
`exStoreMix`. -/
def exKVs : List (String × JSData) := [("x", .scalar 1), ("y", .scalar 2)]

/-- A store holding one scalar entry and one object entry, reached from a
fresh store by `add("s", 5); add("o", {x: 1, y: 2})`. -/
def exStoreMix : Stowrage :=
  { id := 2, IDMap := [(0, "s"), (1, "o")],
    DB := [("s", ⟨0, "s", .scalar 5⟩),
           ("o", ⟨1, "o", .obj [("x", .scalar 1), ("y", .scalar 2)]⟩)],
    maxEntries := none, name := none, isPersistent := false, SQLDB := false,
    table := [] }

/-- `exStoreAB` really is the result of the two adds of the example. -/
theorem exStoreAB_reachable :
    (Stowrage.new none none false []).add "a" (.scalar 1)
      = .ok { exStoreAB with id := 1, IDMap := [(0, "a")],
                             DB := [("a", ⟨0, "a", .scalar 1⟩)] }
    ∧ ({ exStoreAB with id := 1, IDMap := [(0, "a")],
                        DB := [("a", ⟨0, "a", .scalar 1⟩)] } : Stowrage).add "b" (.scalar 2)
      = .ok exStoreAB := ⟨rfl, rfl⟩

/-- `exStoreB` really is `exStoreAB` after `delete("a")`. -/
theorem exStoreB_reachable : exStoreAB.delete "a" = .ok exStoreB := rfl

/-- `exStoreMix` really is the result of its two adds. -/
theorem exStoreMix_reachable :
    (Stowrage.new none none false []).add "s" (.scalar 5)
      = .ok { exStoreMix with id := 1, IDMap := [(0, "s")],
                              DB := [("s", ⟨0, "s", .scalar 5⟩)] }
    ∧ ({ exStoreMix with id := 1, IDMap := [(0, "s")],
                         DB := [("s", ⟨0, "s", .scalar 5⟩)] } : Stowrage).add "o"
           (.obj [("x", .scalar 1), ("y", .scalar 2)])
      = .ok exStoreMix := ⟨rfl, rfl⟩

/-- Reading `mapSet`'s written key back yields the written value. -/
theorem mapGet_mapSet_self {α β : Type} [DecidableEq α]
    (m : List (α × β)) (k : α) (v : β) : mapGet (mapSet m k v) k = some v := by
  induction m with
  | nil => simp [mapSet, mapGet]
  | cons p rest ih =>
    obtain ⟨k1, v1⟩ := p
    by_cases hk : k1 = k
    · simp [mapSet, mapGet, hk]
    · simp [mapSet, mapGet, hk, ih]

/-- `mapSet` leaves every other key's binding unchanged. -/
theorem mapGet_mapSet_ne {α β : Type} [DecidableEq α]
    (m : List (α × β)) (k k2 : α) (v : β) (h : k2 ≠ k) :
    mapGet (mapSet m k v) k2 = mapGet m k2 := by
  have h2 : k ≠ k2 := fun hh => h hh.symm
  induction m with
  | nil => simp [mapSet, mapGet, h2]
  | cons p rest ih =>
    obtain ⟨k1, v1⟩ := p
    by_cases hk : k1 = k
    · subst hk
      simp [mapSet, mapGet, h2]
    · by_cases hk2 : k1 = k2
      · simp [mapSet, mapGet, hk, hk2, h]
      · simp [mapSet, mapGet, hk, hk2, ih]

/-- `generateEntry` in override mode with the name present: the stored id
is reused and the state is returned untouched. -/
theorem generateEntry_override_eq (s : Stowrage) (nm : String) (e : DataBase)
    (v : JSData) (he : mapGet s.DB nm = some e) :
    generateEntry s nm v true = .ok (⟨e.id, nm, v⟩, s) := by
  unfold generateEntry
  rw [he]
  rfl

/-- `override` on a present name succeeds; it rewrites the name index at
that name with the id-preserving regenerated entry, and touches neither
the id index nor the counter. -/
theorem override_found (s : Stowrage) (nm : String) (e : DataBase) (v : JSData)
    (he : mapGet s.DB nm = some e) :
    ∃ s1 : Stowrage, override s nm v = .ok s1
      ∧ s1.DB = mapSet s.DB nm ⟨e.id, nm, v⟩
      ∧ s1.IDMap = s.IDMap ∧ s1.id = s.id := by
  unfold override
  rw [generateEntry_override_eq s nm e v he, he]
  simp only [Option.isSome_some, if_true]
  split
  · exact ⟨_, rfl, rfl, rfl, rfl⟩
  · exact ⟨_, rfl, rfl, rfl, rfl⟩

end Stowrage

namespace Stowrage

/-- C1: the claimed eviction at the cap does not happen. With
`maxEntries = 1`, adding the 2 distinct entries "a" and "b" yields
`totalEntries() = 2` — not 1 as the claim states — and the entry with the
smallest id ("a", id 0) is still present: the eviction guard compares the
PRE-insert size of the name index against `maxEntries`, so an insert that
makes the count exceed the cap evicts nothing. -/
theorem c1_cap_not_enforced :
    (((Stowrage.new (some 1) none false []).add "a" (.scalar 0)).bind
        (fun s1 => s1.add "b" (.scalar 0))).map
      (fun s : Stowrage => (s.totalEntries, (mapGet s.DB "a").isSome))
    = .ok (2, true) := rfl

/-- C2: the dual-index bijection is broken by an eviction. With
`maxEntries = 2`, after adding "a", "b", "c", "d" the eviction triggered
by the fourth insert removes "c" from the name index but leaves id 2 in
the id index: the name index then has 3 entries while the id index has 4,
and id 2 still resolves to the evicted name "c". -/
theorem c2_bijection_broken :
    (((((Stowrage.new (some 2) none false []).add "a" (.scalar 0)).bind
        (fun s : Stowrage => s.add "b" (.scalar 0))).bind
        (fun s : Stowrage => s.add "c" (.scalar 0))).bind
        (fun s : Stowrage => s.add "d" (.scalar 0))).map
      (fun s : Stowrage =>
        (s.DB.length, s.IDMap.length, mapGet s.IDMap 2, (mapGet s.DB "c").isSome))
    = .ok (3, 4, some "c", false) := rfl

/-- C3: the persistence round-trip fails as soon as `override` is used.
For a persistent store: `init`; `add("a", 1)`; `override("a", 2)` —
`REPLACE INTO` on a table with no uniqueness constraint appends a second
row for "a" — then `close`, and a fresh instance on the same file replays
both rows through `add`, so `init()` throws `NameDuplicationError("a")`
instead of reproducing the store. -/
theorem c3_roundtrip_fails :
    ((((((Stowrage.new none (some "p") true []).init).bind
        (fun s : Stowrage => s.add "a" (.scalar 1))).bind
        (fun s : Stowrage => s.override "a" (.scalar 2))).bind
        (fun s : Stowrage => s.close)).bind
        (fun s : Stowrage => (Stowrage.new none (some "p") true s.table).init))
    = .error (.NameDuplicationError "a") := rfl

/-- C4: `setValue` raises the wrong errors for absent keys. With an
absent non-empty name it crashes with a JS `TypeError` (reading `.data`
of `undefined`) instead of `NameNotFoundError(name)`; with an absent id
it throws `IDNotFoundError` carrying `undefined` instead of the id,
because the id variable was already overwritten by the failed name
lookup. The `NameNotFoundError` branch is reachable only for the empty
string. -/
theorem c4_setValue_error_divergence :
    setValue (Stowrage.new none none false []) (.inl "missing") none (.scalar 0)
      = .error .TypeError
    ∧ setValue (Stowrage.new none none false []) (.inr 5) none (.scalar 0)
      = .error (.IDNotFoundError none)
    ∧ setValue (Stowrage.new none none false []) (.inl "") none (.scalar 0)
      = .error (.NameNotFoundError "") := ⟨rfl, rfl, rfl⟩

/-- C10: whenever `start + length >= totalEntries()`, `fetchByRange`
returns every entry of the store — the coverage check compares
`start + length` with the entry count, not with the stored ids, so
entries whose id lies outside `[start, start + length)` are returned
too. -/
theorem c10_fetchByRange_full_coverage (s : Stowrage) (start length : Nat)
    (h : s.totalEntries ≤ start + length) :
    fetchByRange s start length = s.DB.map Prod.snd := by
  have h2 : s.DB.length ≤ start + length := h
  simp only [fetchByRange]
  rw [if_pos h2]

/-- Witness for C10 at a store where a deletion made ids non-contiguous:
`exStoreB` holds the single entry `("b", id 1)`; `fetchByRange 0 1`
(range `[0, 1)`) returns that entry even though its id 1 is outside the
range. -/
theorem c10_fetchByRange_full_coverage_witness :
    exStoreB.totalEntries ≤ 0 + 1
    ∧ fetchByRange exStoreB 0 1 = exStoreB.DB.map Prod.snd
    ∧ fetchByRange exStoreB 0 1 = [⟨1, "b", .scalar 2⟩]
    ∧ ¬ ((1 : Nat) < 0 + 1) :=
  ⟨by decide, c10_fetchByRange_full_coverage exStoreB 0 1 (by decide), rfl,
   by decide⟩

/-- C8: adding a name that is already present fails with
`NameDuplicationError(name)` from both `add` and `ensure`; the duplicate
check precedes every mutation, so the store is unchanged (the exception
aborts before any index write or counter advance). -/
theorem c8_duplicate_add_rejected (s : Stowrage) (nm : String) (v w : JSData)
    (h : (mapGet s.DB nm).isSome = true) :
    add s nm v = .error (.NameDuplicationError nm)
    ∧ ensure s nm w = .error (.NameDuplicationError nm) := by
  constructor
  · unfold add
    rw [if_pos h]
  · unfold ensure
    rw [if_pos h]

/-- Witness for C8: re-adding "a" to the two-entry store fails both ways
with the duplication error. -/
theorem c8_duplicate_add_rejected_witness :
    (mapGet exStoreAB.DB "a").isSome = true
    ∧ exStoreAB.add "a" (.scalar 7) = .error (.NameDuplicationError "a")
    ∧ exStoreAB.ensure "a" (.scalar 8) = .error (.NameDuplicationError "a") :=
  ⟨rfl, (c8_duplicate_add_rejected exStoreAB "a" (.scalar 7) (.scalar 8) rfl).1,
   (c8_duplicate_add_rejected exStoreAB "a" (.scalar 7) (.scalar 8) rfl).2⟩

end Stowrage

namespace Stowrage

/-- C5: the non-clearing branch of `deleteByRange`. When
`start + length < totalEntries()`, exactly the entries whose id lies in
the INCLUSIVE range `[start, start + length]` are removed from both
indices; every other entry stays, and the id counter is untouched. -/
theorem c5_deleteByRange_inclusive (s : Stowrage) (start length : Nat)
    (h : start + length < s.totalEntries) :
    (deleteByRange s start length).id = s.id
    ∧ (∀ p : String × DataBase, p ∈ (deleteByRange s start length).DB ↔
        p ∈ s.DB ∧ ¬(start ≤ p.2.id ∧ p.2.id ≤ start + length))
    ∧ (∀ q : Nat × String, q ∈ (deleteByRange s start length).IDMap ↔
        q ∈ s.IDMap ∧ ¬(start ≤ q.1 ∧ q.1 ≤ start + length)) := by
  have hn : ¬ (s.DB.length ≤ start + length) := Nat.not_le.mpr h
  refine ⟨?_, ?_, ?_⟩
  · simp only [deleteByRange]
    rw [if_neg hn]
    split <;> rfl
  · intro p
    simp only [deleteByRange]
    rw [if_neg hn]
    have hmem : p ∈ List.filter
        (fun e => decide (e.2.id < start) || decide (start + length < e.2.id)) s.DB ↔
        p ∈ s.DB ∧ ¬(start ≤ p.2.id ∧ p.2.id ≤ start + length) := by
      rw [List.mem_filter]
      simp only [Bool.or_eq_true, decide_eq_true_eq]
      constructor
      · rintro ⟨h1, h2⟩
        exact ⟨h1, by omega⟩
      · rintro ⟨h1, h2⟩
        exact ⟨h1, by omega⟩
    split <;> exact hmem
  · intro q
    simp only [deleteByRange]
    rw [if_neg hn]
    have hmem : q ∈ List.filter
        (fun e => decide (e.1 < start) || decide (start + length < e.1)) s.IDMap ↔
        q ∈ s.IDMap ∧ ¬(start ≤ q.1 ∧ q.1 ≤ start + length) := by
      rw [List.mem_filter]
      simp only [Bool.or_eq_true, decide_eq_true_eq]
      constructor
      · rintro ⟨h1, h2⟩
        exact ⟨h1, by omega⟩
      · rintro ⟨h1, h2⟩
        exact ⟨h1, by omega⟩
    split <;> exact hmem

/-- Witness for C5 at the example of the claim: after `add("a", 1)` and
`add("b", 2)`, `deleteByRange(0, 0)` removes only the entry with id 0,
and the name index becomes exactly `[("b", id 1)]`. -/
theorem c5_deleteByRange_inclusive_witness :
    0 + 0 < exStoreAB.totalEntries
    ∧ ((("b", ⟨1, "b", .scalar 2⟩) : String × DataBase)
         ∈ (deleteByRange exStoreAB 0 0).DB ↔
       (("b", ⟨1, "b", .scalar 2⟩) : String × DataBase) ∈ exStoreAB.DB
         ∧ ¬((0 : Nat) ≤ 1 ∧ (1 : Nat) ≤ 0 + 0))
    ∧ ((("a", ⟨0, "a", .scalar 1⟩) : String × DataBase)
         ∈ (deleteByRange exStoreAB 0 0).DB ↔
       (("a", ⟨0, "a", .scalar 1⟩) : String × DataBase) ∈ exStoreAB.DB
         ∧ ¬((0 : Nat) ≤ 0 ∧ (0 : Nat) ≤ 0 + 0))
    ∧ (deleteByRange exStoreAB 0 0).DB = [("b", ⟨1, "b", .scalar 2⟩)]
    ∧ (deleteByRange exStoreAB 0 0).IDMap = [(1, "b")] :=
  ⟨by decide,
   (c5_deleteByRange_inclusive exStoreAB 0 0 (by decide)).2.1 ("b", ⟨1, "b", .scalar 2⟩),
   (c5_deleteByRange_inclusive exStoreAB 0 0 (by decide)).2.1 ("a", ⟨0, "a", .scalar 1⟩),
   rfl, rfl⟩

/-- On a store whose name index is empty, `ensure` always succeeds and
the created entry's id is the current counter value. -/
theorem ensure_of_empty (s : Stowrage) (hDB : s.DB = []) (n : String)
    (v : JSData) :
    ∃ s2 : Stowrage, ensure s n v = .ok (⟨s.id, n, v⟩, s2) := by
  have h1 : mapGet s.DB n = none := by rw [hDB]; rfl
  unfold ensure generateEntry
  rw [h1]
  exact ⟨_, rfl⟩

/-- C6: the clearing branch of `deleteByRange`. When
`start + length >= totalEntries()`, both indices are emptied and the id
counter resets to 0, so the next entry created (by `ensure`, i.e. the
shared `add` path) receives id 0. -/
theorem c6_deleteByRange_full_clear (s : Stowrage) (start length : Nat)
    (h : s.totalEntries ≤ start + length) :
    (deleteByRange s start length).DB = []
    ∧ (deleteByRange s start length).IDMap = []
    ∧ (deleteByRange s start length).id = 0
    ∧ ∀ (n : String) (v : JSData), ∃ s2 : Stowrage,
        (deleteByRange s start length).ensure n v = .ok (⟨0, n, v⟩, s2) := by
  have h2 : s.DB.length ≤ start + length := h
  have hDB : (deleteByRange s start length).DB = [] := by
    simp only [deleteByRange]
    rw [if_pos h2]
    split <;> rfl
  have hid : (deleteByRange s start length).id = 0 := by
    simp only [deleteByRange]
    rw [if_pos h2]
    split <;> rfl
  refine ⟨hDB, ?_, hid, ?_⟩
  · simp only [deleteByRange]
    rw [if_pos h2]
    split <;> rfl
  · intro n v
    obtain ⟨s2, hs2⟩ := ensure_of_empty (deleteByRange s start length) hDB n v
    rw [hid] at hs2
    exact ⟨s2, hs2⟩

/-- Witness for C6: clearing the two-entry store with
`deleteByRange(0, 5)` empties it, resets the counter, and the next
`ensure` hands out id 0. -/
theorem c6_deleteByRange_full_clear_witness :
    exStoreAB.totalEntries ≤ 0 + 5
    ∧ (deleteByRange exStoreAB 0 5).DB = []
    ∧ (deleteByRange exStoreAB 0 5).IDMap = []
    ∧ (deleteByRange exStoreAB 0 5).id = 0
    ∧ ∃ s2 : Stowrage, (deleteByRange exStoreAB 0 5).ensure "x" (.scalar 7)
        = .ok (⟨0, "x", .scalar 7⟩, s2) :=
  ⟨by decide, (c6_deleteByRange_full_clear exStoreAB 0 5 (by decide)).1,
   (c6_deleteByRange_full_clear exStoreAB 0 5 (by decide)).2.1,
   (c6_deleteByRange_full_clear exStoreAB 0 5 (by decide)).2.2.1,
   (c6_deleteByRange_full_clear exStoreAB 0 5 (by decide)).2.2.2 "x" (.scalar 7)⟩

/-- C9: `override` on an existing entry replaces only that entry's data.
The regenerated entry keeps the stored id and the given name, every other
name's binding is unchanged, and the id index and the id counter are
untouched. -/
theorem c9_override_frame (s : Stowrage) (nm : String) (e : DataBase)
    (v : JSData) (he : mapGet s.DB nm = some e) :
    ∃ s1 : Stowrage, override s nm v = .ok s1
      ∧ mapGet s1.DB nm = some ⟨e.id, nm, v⟩
      ∧ (∀ nm2, nm2 ≠ nm → mapGet s1.DB nm2 = mapGet s.DB nm2)
      ∧ s1.IDMap = s.IDMap ∧ s1.id = s.id := by
  obtain ⟨s1, hov, hDB, hIDMap, hid⟩ := override_found s nm e v he
  refine ⟨s1, hov, ?_, ?_, hIDMap, hid⟩
  · rw [hDB]
    exact mapGet_mapSet_self _ _ _
  · intro nm2 hne
    rw [hDB]
    exact mapGet_mapSet_ne _ _ _ _ hne

/-- Witness for C9: overriding "a" in the two-entry store keeps id 0,
leaves "b" alone and leaves the counter at 2. -/
theorem c9_override_frame_witness :
    mapGet exStoreAB.DB "a" = some ⟨0, "a", .scalar 1⟩
    ∧ ∃ s1 : Stowrage, override exStoreAB "a" (.scalar 9) = .ok s1
        ∧ mapGet s1.DB "a" = some ⟨0, "a", .scalar 9⟩
        ∧ (∀ nm2, nm2 ≠ "a" → mapGet s1.DB nm2 = mapGet exStoreAB.DB nm2)
        ∧ s1.IDMap = exStoreAB.IDMap ∧ s1.id = exStoreAB.id :=
  ⟨rfl, c9_override_frame exStoreAB "a" ⟨0, "a", .scalar 1⟩ (.scalar 9) rfl⟩

end Stowrage

namespace Stowrage

/-- C7 counterexample: the claimed data semantics do NOT hold for every
existing entry. An entry named "" is reachable (`add("", v)` passes the
duplicate check), its data is scalar, yet `setValue` on it — addressed by
the name "" or by its id 0, which resolves back to "" — is rejected up
front by the `if (!nameID)` falsy check with `NameNotFoundError("")`
before the scalar/structured logic runs, so the data is never replaced. -/
theorem c7_empty_name_counterexample :
    ((Stowrage.new none none false []).add "" (.scalar 5)).map
      (fun s : Stowrage =>
        (mapGet s.DB "",
         setValue s (.inl "") none (.scalar 9),
         setValue s (.inr 0) none (.scalar 9)))
    = .ok (some ⟨0, "", .scalar 5⟩,
           .error (.NameNotFoundError ""),
           .error (.NameNotFoundError "")) := rfl

/-- C7 (amended): `setValue` on an existing entry addressed by a
NON-EMPTY name — an entry named "" is instead rejected up front by the
falsy check with `NameNotFoundError("")`, see the counterexample above.
Scalar data is replaced wholesale by the supplied value (any `key` is
ignored); object data with no `key` fails with `KeyUndefinedError`;
object data with a key absent from the record fails with
`InvalidKeyError(key, storeName)` and — the error aborting before any
write — leaves the data untouched; object data with an existing key gets
exactly that key's value replaced, every sibling key keeping its value.
In all success cases the entry keeps its id (via `override`). -/
theorem c7_setValue_semantics (s : Stowrage) (nm : String) (e : DataBase)
    (hnm : nm ≠ "") (he : mapGet s.DB nm = some e) :
    (∀ (x : Int) (k : Option String) (v : JSData), e.data = .scalar x →
      ∃ s1 : Stowrage, setValue s (.inl nm) k v = .ok s1
        ∧ mapGet s1.DB nm = some ⟨e.id, nm, v⟩)
    ∧ (∀ (kvs : List (String × JSData)) (v : JSData), e.data = .obj kvs →
        setValue s (.inl nm) none v = .error .KeyUndefinedError)
    ∧ (∀ (kvs : List (String × JSData)) (k : String) (v : JSData),
        e.data = .obj kvs → mapGet kvs k = none →
        setValue s (.inl nm) (some k) v
          = .error (.InvalidKeyError k s.displayName))
    ∧ (∀ (kvs : List (String × JSData)) (k : String) (v w : JSData),
        e.data = .obj kvs → mapGet kvs k = some w →
        ∃ s1 : Stowrage, setValue s (.inl nm) (some k) v = .ok s1
          ∧ mapGet s1.DB nm = some ⟨e.id, nm, .obj (mapSet kvs k v)⟩
          ∧ mapGet (mapSet kvs k v) k = some v
          ∧ ∀ k2, k2 ≠ k → mapGet (mapSet kvs k v) k2 = mapGet kvs k2) := by
  refine ⟨?_, ?_, ?_, ?_⟩
  · intro x k v hx
    obtain ⟨s1, hov, hDB, _, _⟩ := override_found s nm e v he
    refine ⟨s1, ?_, ?_⟩
    · simp [setValue, hnm, he, hx]
      exact hov
    · rw [hDB]
      exact mapGet_mapSet_self _ _ _
  · intro kvs v hkvs
    simp [setValue, hnm, he, hkvs]
  · intro kvs k v hkvs hk
    simp [setValue, hnm, he, hkvs, hk]
  · intro kvs k v w hkvs hk
    obtain ⟨s1, hov, hDB, _, _⟩ :=
      override_found s nm e (.obj (mapSet kvs k v)) he
    refine ⟨s1, ?_, ?_, mapGet_mapSet_self _ _ _, ?_⟩
    · simp [setValue, hnm, he, hkvs, hk]
      exact hov
    · rw [hDB]
      exact mapGet_mapSet_self _ _ _
    · intro k2 hne
      exact mapGet_mapSet_ne _ _ _ _ hne

/-- Witness for C7 on `exStoreMix` ("s" scalar, "o" object with keys x, y):
scalar replacement, missing-key error, invalid-key error, and a
single-key update leaving the sibling key "y" untouched. -/
theorem c7_setValue_semantics_witness :
    ("s" ≠ "" ∧ mapGet exStoreMix.DB "s" = some ⟨0, "s", .scalar 5⟩)
    ∧ (∃ s1 : Stowrage, setValue exStoreMix (.inl "s") none (.scalar 9) = .ok s1
        ∧ mapGet s1.DB "s" = some ⟨0, "s", .scalar 9⟩)
    ∧ setValue exStoreMix (.inl "o") none (.scalar 9) = .error .KeyUndefinedError
    ∧ setValue exStoreMix (.inl "o") (some "z") (.scalar 9)
        = .error (.InvalidKeyError "z" "unnamed db")
    ∧ ∃ s1 : Stowrage, setValue exStoreMix (.inl "o") (some "x") (.scalar 9) = .ok s1
        ∧ mapGet s1.DB "o" = some ⟨1, "o", .obj (mapSet exKVs "x" (.scalar 9))⟩
        ∧ mapGet (mapSet exKVs "x" (.scalar 9)) "x" = some (.scalar 9)
        ∧ ∀ k2, k2 ≠ "x" →
            mapGet (mapSet exKVs "x" (.scalar 9)) k2 = mapGet exKVs k2 :=
  ⟨⟨by decide, rfl⟩,
   (c7_setValue_semantics exStoreMix "s" ⟨0, "s", .scalar 5⟩ (by decide) rfl).1
     5 none (.scalar 9) rfl,
   (c7_setValue_semantics exStoreMix "o" ⟨1, "o", .obj exKVs⟩
       (by decide) rfl).2.1 exKVs (.scalar 9) rfl,
   (c7_setValue_semantics exStoreMix "o" ⟨1, "o", .obj exKVs⟩
       (by decide) rfl).2.2.1 exKVs "z" (.scalar 9) rfl rfl,
   (c7_setValue_semantics exStoreMix "o" ⟨1, "o", .obj exKVs⟩
       (by decide) rfl).2.2.2 exKVs "x" (.scalar 9) (.scalar 1) rfl rfl⟩

end Stowrage
